import Mathlib

/-!
# Verification of `UserPreferencesService` (src/services/user_preferences.py)

A shallow embedding of the preferences service of the signal-bot repository:
the preference value domain (booleans, integers, strings — the three declared
value types of the schema), the string-encoded key-value store (`bot_config`
table restricted to the columns the service reads), the read-path decoding
cascade (JSON parse, boolean-string coercion, integer coercion for the three
integer keys), the snapshot cache with its 60-second window, and the
formatting / timezone helpers.

Machine notes on the embedding:
* `PValue` covers the three value types the schema declares
  (`DEFAULT_PREFERENCES` holds only `bool`, `int` and `str` defaults); the
  `dict`/`list` serialization branch of `set_preference` is therefore not
  reachable from this domain and is not modelled.
* `pyEq` models Python `==` on this domain, including the Python identity
  `True == 1`, `False == 0` used by `in`-membership tests.
* `jsonLoads` models `json.loads` restricted to the strings this service
  stores and validates: the literals `true` / `false` and decimal integer
  literals parse; plain identifier-like strings (every schema enum value,
  every IANA timezone identifier) fail to parse and fall back to the raw
  string, exactly as in the code's `except (JSONDecodeError, TypeError)`
  branch.  Strings that real `json.loads` would parse differently (floats,
  quoted strings, brackets, `null`, `NaN`, `Infinity`) are outside the
  value domain written by the service; theorems quantifying over externally
  supplied strings (timezone catalog entries) carry an explicit
  plain-string hypothesis.
* Time is modelled in whole seconds as `Nat`; `tdSeconds` models the
  `.seconds` component of a non-negative Python `timedelta`
  (`delta % 86400`, *not* `total_seconds()`).
* The `updated_at` column is written by the service but never read; the
  store model keeps only `(key, value)`.
-/

deriving instance DecidableEq for Except

namespace SignalBot

/-- A Python value of one of the three types declared by the preference
schema: boolean, integer or string. -/
inductive PValue where
  | pbool : Bool → PValue
  | pint : Int → PValue
  | pstr : String → PValue
deriving DecidableEq, Repr

open PValue

/-- Python `==` on the schema's value domain.  Python identifies `True`
with `1` and `False` with `0`; strings never equal booleans or integers. -/
def pyEq : PValue → PValue → Bool
  | pbool a, pbool b => a == b
  | pint a, pint b => a == b
  | pbool a, pint b => (if a then (1 : Int) else 0) == b
  | pint a, pbool b => a == (if b then (1 : Int) else 0)
  | pstr a, pstr b => a == b
  | _, _ => false

/-- Python `in`-membership over a list, using Python equality. -/
def pyMem (v : PValue) (l : List PValue) : Bool :=
  l.any (pyEq v)

/-- `set_preference`'s value serialization: booleans become the literal
strings `"true"` / `"false"`, everything else its plain string form
(`str(value)`; for integers Python's decimal rendering). -/
def serializeValue : PValue → String
  | pbool b => if b then "true" else "false"
  | pint n => toString n
  | pstr s => s

/-- Is `s` a decimal integer literal as accepted by JSON: an optional
leading minus sign followed by one or more ASCII digits. -/
def isJsonIntLit (s : String) : Bool :=
  match s.data with
  | [] => false
  | '-' :: rest => rest ≠ [] && rest.all Char.isDigit
  | l => l.all Char.isDigit

/-- The numeric value of a list of decimal digits. -/
def digitsToNat (l : List Char) : Nat :=
  l.foldl (fun acc c => acc * 10 + (c.toNat - '0'.toNat)) 0

/-- Parse a decimal integer literal (optional leading minus). -/
def parseIntLit (s : String) : Int :=
  match s.data with
  | '-' :: rest => - (digitsToNat rest : Int)
  | l => digitsToNat l

/-- Model of `json.loads` on the strings the service stores: the JSON
literals `true` / `false` parse to booleans, decimal integer literals
parse to integers, and every other string fails (modelled as `none`),
which the read path turns into the raw string. -/
def jsonLoads (s : String) : Option PValue :=
  if s = "true" then some (pbool true)
  else if s = "false" then some (pbool false)
  else if isJsonIntLit s then some (pint (parseIntLit s))
  else none

/-- A string on which this `json.loads` model agrees with reality and which
is not one of the legacy boolean literals: it starts with an ASCII letter
(so real `json.loads` rejects it — it is not a number, a quoted string, a
container, or a JSON literal), it is not an integer literal, and it is
none of `true`/`True`/`false`/`False`/`null`/`NaN`/`Infinity`.  Every
IANA timezone identifier satisfies this. -/
def plainStoredString (s : String) : Bool :=
  (match s.data with
   | c :: _ => c.isAlpha
   | [] => false)
  && !isJsonIntLit s
  && decide (s ∉ ["true", "True", "false", "False", "null", "NaN", "Infinity"])

/-- The three integer-typed keys singled out by the read path's integer
coercion. -/
def intCoercedKeys : List String :=
  ["messages_per_page", "auto_refresh_interval", "dashboard_refresh_rate"]

/-- Python `int(value)` as applied by the read path: integers unchanged,
booleans become 0/1, strings parse when they are decimal literals;
`none` models the `ValueError`/`TypeError` that the code swallows
(value kept as-is). -/
def pyIntCoerce : PValue → Option PValue
  | pint n => some (pint n)
  | pbool b => some (pint (if b then 1 else 0))
  | pstr s => if isJsonIntLit s then some (pint (parseIntLit s)) else none

/-- The read path's decoding cascade for one stored row, given the bare
(prefix-stripped) key and the stored string: JSON parse with raw-string
fallback, then the legacy boolean-string coercion (`'true'/'True'` /
`'false'/'False'`), then integer coercion for the three integer keys with
failure ignored. -/
def decodeStored (key : String) (raw : String) : PValue :=
  let v := match jsonLoads raw with
    | some x => x
    | none => pstr raw
  let v := if v = pstr "true" ∨ v = pstr "True" then pbool true
    else if v = pstr "false" ∨ v = pstr "False" then pbool false
    else v
  if intCoercedKeys.contains key then
    match pyIntCoerce v with
    | some w => w
    | none => v
  else v

/-! ## Python dictionaries and the key-value store -/

/-- A Python dict with string keys, as an association list; insertion order
is preserved and assignment to an existing key updates in place. -/
abbrev Dict (β : Type) : Type := List (String × β)

/-- Dict lookup (`d[k]` / `d.get(k)`). -/
def dictGet {β : Type} (d : Dict β) (k : String) : Option β :=
  (d.find? (fun p => p.1 == k)).map (·.2)

/-- Dict assignment `d[k] = v`: update the (unique) occurrence of the key
in place when present, else append at the end — Python dict insertion
semantics. -/
def dictSet {β : Type} (d : Dict β) (k : String) (v : β) : Dict β :=
  match d with
  | [] => [(k, v)]
  | p :: rest => if p.1 = k then (k, v) :: rest else p :: dictSet rest k v

/-- The `bot_config` table restricted to what the service reads: rows of
`(key, value)`, keys unique (the table's primary key); `INSERT OR
REPLACE` keyed on the primary key is dict assignment (row order is
immaterial to the read path because keys are unique). -/
abbrev Store : Type := Dict String

/-- SQL `key LIKE 'pref_%'`: `_` is a single-character wildcard, so this
matches every key whose first four characters are `p`,`r`,`e`,`f`
followed by at least one more character. -/
def likePrefPattern (k : String) : Bool :=
  match k.data with
  | 'p' :: 'r' :: 'e' :: 'f' :: _ :: _ => true
  | _ => false

/-- Remove every (left-to-right, non-overlapping) occurrence of the
five-character pattern `pref_`. -/
def dropPrefOcc : List Char → List Char
  | 'p' :: 'r' :: 'e' :: 'f' :: '_' :: rest => dropPrefOcc rest
  | c :: rest => c :: dropPrefOcc rest
  | [] => []

/-- The read path's key stripping: Python `key.replace('pref_', '')`
removes every occurrence of the substring `pref_`. -/
def stripPrefKey (k : String) : String :=
  String.mk (dropPrefOcc k.data)

/-- Does a store row affect the dict entry of the bare key `k` during the
reload fold: it is selected by `LIKE 'pref_%'` and its stripped key is
`k`. -/
def touchesKey (k : String) (row : String × String) : Bool :=
  likePrefPattern row.1 && (stripPrefKey row.1 == k)

/-! ## The schema: `DEFAULT_PREFERENCES` and `PREFERENCE_OPTIONS` -/

/-- `DEFAULT_PREFERENCES`: the 19 recognized keys with their defaults, in
source order. -/
def DEFAULT_PREFERENCES : Dict PValue :=
  [ ("timezone", pstr "UTC"),
    ("date_format", pstr "YYYY-MM-DD"),
    ("time_format", pstr "24h"),
    ("messages_per_page", pint 50),
    ("auto_refresh_interval", pint 30),
    ("show_message_previews", pbool true),
    ("show_reaction_notifications", pbool true),
    ("enable_auto_reactions", pbool true),
    ("default_emoji_mode", pstr "random"),
    ("language", pstr "en"),
    ("show_unmonitored_groups", pbool false),
    ("compact_message_view", pbool false),
    ("enable_ai_features", pbool true),
    ("default_ai_provider", pstr "ollama"),
    ("activity_chart_style", pstr "bars"),
    ("dashboard_refresh_rate", pint 60),
    ("filter_persist_navigation", pbool true),
    ("show_deleted_messages", pbool false),
    ("notification_sound", pbool true) ]

/-- The fixed list of 14 common timezone identifiers placed first in the
catalog. -/
def commonZones : List String :=
  [ "UTC",
    "US/Eastern",
    "US/Central",
    "US/Mountain",
    "US/Pacific",
    "Europe/London",
    "Europe/Paris",
    "Europe/Berlin",
    "Asia/Tokyo",
    "Asia/Shanghai",
    "Asia/Hong_Kong",
    "Asia/Singapore",
    "Australia/Sydney",
    "Australia/Melbourne" ]

/-- `_get_timezone_options`: the common zones followed by every remaining
catalog identifier (`pytz.all_timezones`, supplied externally) in
lexicographic order; zones already in the common list are excluded from
the sorted remainder.  Python `sorted` on strings is a stable sort by
code points, which on duplicate-free string lists coincides with
insertion sort by `≤`. -/
def getTimezoneOptions (allZones : List String) : List String :=
  commonZones ++ List.insertionSort (· ≤ ·) (allZones.filter (fun tz => !(commonZones.contains tz)))

/-- `PREFERENCE_OPTIONS` after `__init__` populated the timezone entry:
`some` exactly for the ten keys present in the dict, with the timezone
options built from the external catalog. -/
def PREFERENCE_OPTIONS (tzOptions : List String) (k : String) : Option (List PValue) :=
  if k = "timezone" then some (tzOptions.map pstr)
  else if k = "date_format" then
    some [pstr "YYYY-MM-DD", pstr "DD/MM/YYYY", pstr "MM/DD/YYYY",
          pstr "DD.MM.YYYY", pstr "YYYY年MM月DD日"]
  else if k = "time_format" then some [pstr "24h", pstr "12h"]
  else if k = "messages_per_page" then
    some [pint 25, pint 50, pint 100, pint 200]
  else if k = "auto_refresh_interval" then
    some [pint 0, pint 15, pint 30, pint 60, pint 120, pint 300]
  else if k = "default_emoji_mode" then
    some [pstr "random", pstr "fixed", pstr "disabled"]
  else if k = "language" then
    some [pstr "en", pstr "ja", pstr "es", pstr "fr", pstr "de", pstr "zh"]
  else if k = "default_ai_provider" then
    some [pstr "ollama", pstr "openai", pstr "anthropic", pstr "gemini", pstr "groq"]
  else if k = "activity_chart_style" then
    some [pstr "bars", pstr "heatmap", pstr "line"]
  else if k = "dashboard_refresh_rate" then
    some [pint 0, pint 30, pint 60, pint 120, pint 300]
  else none

/-! ## Service state and operations -/

/-- The mutable state of one `UserPreferencesService` instance together
with the backing store: the `bot_config` rows, the instance cache fields
`_preferences_cache` / `_cache_timestamp`, and the timezone options
populated at construction. -/
structure PrefState where
  store : Store
  cache : Option (Dict PValue)
  cacheTs : Option Nat
  tzOptions : List String
deriving Repr, DecidableEq

/-- A freshly constructed service over a given store and external timezone
catalog: both cache fields are `None`. -/
def initState (store : Store) (allZones : List String) : PrefState :=
  { store := store, cache := none, cacheTs := none,
    tzOptions := getTimezoneOptions allZones }

/-- The `.seconds` component of a non-negative Python `timedelta` of
`d` whole seconds: the remainder after removing whole days. -/
def tdSeconds (d : Nat) : Nat := d % 86400

/-- The cache TTL `_cache_timeout`. -/
def cacheTimeout : Nat := 60

/-- One iteration of the reload loop of `get_all_preferences`: a row
whose key matches `LIKE 'pref_%'` is stripped, decoded and assigned into
the dict; other rows are never selected. -/
def loadStep (d : Dict PValue) (row : String × String) : Dict PValue :=
  if likePrefPattern row.1 then
    dictSet d (stripPrefKey row.1) (decodeStored (stripPrefKey row.1) row.2)
  else d

/-- The reload path of `get_all_preferences`: start from a copy of the
defaults, fold every row matching `LIKE 'pref_%'` through the decoding
cascade, assigning into the dict under the stripped key. -/
def loadPreferences (store : Store) : Dict PValue :=
  store.foldl loadStep DEFAULT_PREFERENCES

/-- `get_all_preferences` at time `now`: return the cached dict when both
cache fields are truthy (a dict is truthy iff non-empty) and the
`.seconds` component of the age is below the timeout; otherwise reload
from the store and cache the result with the current timestamp. -/
def get_all_preferences (st : PrefState) (now : Nat) : Dict PValue × PrefState :=
  match st.cache, st.cacheTs with
  | some c, some ts =>
      if !c.isEmpty && tdSeconds (now - ts) < cacheTimeout then (c, st)
      else
        let prefs := loadPreferences st.store
        (prefs, { st with cache := some prefs, cacheTs := some now })
  | _, _ =>
      let prefs := loadPreferences st.store
      (prefs, { st with cache := some prefs, cacheTs := some now })

/-- `get_preference`: look the key up in the snapshot, falling back to the
static default; `none` models Python `None` (both lookups missed). -/
def get_preference (st : PrefState) (now : Nat) (key : String) :
    Option PValue × PrefState :=
  (match dictGet (get_all_preferences st now).1 key with
   | some v => some v
   | none => dictGet DEFAULT_PREFERENCES key,
   (get_all_preferences st now).2)

/-- `set_preference`: reject unknown keys; reject values outside a
declared non-empty options list (a Python empty or `None` options entry
is falsy and skips validation); otherwise serialize, upsert the
`pref_`-prefixed row, and clear `_preferences_cache` (the timestamp field
is left as is — the truthiness test makes that irrelevant).  An error
models the raised `ValueError`; the state component is the state at the
moment of the raise. -/
def set_preference (st : PrefState) (key : String) (v : PValue) :
    PrefState × Except String Bool :=
  if (dictGet DEFAULT_PREFERENCES key).isNone then
    (st, .error ("Unknown preference key: " ++ key))
  else
    match PREFERENCE_OPTIONS st.tzOptions key with
    | some opts =>
        if !opts.isEmpty && !pyMem v opts then
          (st, .error ("Invalid value for " ++ key))
        else
          ({ st with store := dictSet st.store ("pref_" ++ key) (serializeValue v),
                     cache := none }, .ok true)
    | none =>
        ({ st with store := dictSet st.store ("pref_" ++ key) (serializeValue v),
                   cache := none }, .ok true)

/-- The state after applying `set_preference` to each pair in order,
keeping the state reached before a raise (used to phrase what
`set_multiple_preferences` leaves behind). -/
def applyWrites (st : PrefState) (l : List (String × PValue)) : PrefState :=
  l.foldl (fun s e => (set_preference s e.1 e.2).1) st

/-- `set_multiple_preferences`: apply `set_preference` to each pair in
iteration order; the first error stops the loop and propagates, with every
earlier write already applied. -/
def set_multiple_preferences (st : PrefState) :
    List (String × PValue) → PrefState × Except String Bool
  | [] => (st, .ok true)
  | (k, v) :: rest =>
      match set_preference st k v with
      | (st', .ok _) => set_multiple_preferences st' rest
      | (st', .error e) => (st', .error e)

/-- `reset_to_defaults`: delete every row matching `LIKE 'pref_%'` and
clear the cache. -/
def reset_to_defaults (st : PrefState) : PrefState × Bool :=
  ({ st with store := st.store.filter (fun row => !likePrefPattern row.1),
             cache := none }, true)

/-! ## Verification-side derived definitions (not from the source) -/

/-- The condition under which `set_preference` performs its write rather
than raising: the key is recognized, and either no options entry is
declared for it, or the declared list is empty (falsy), or the value is a
member of the list under Python equality.  (Derived from the source's two
validation tests; note there is no type test.) -/
def validWrite (tz : List String) (k : String) (v : PValue) : Bool :=
  (dictGet DEFAULT_PREFERENCES k).isSome &&
  (match PREFERENCE_OPTIONS tz k with
   | some opts => opts.isEmpty || pyMem v opts
   | none => true)

/-- Does `v` have the declared type of key `k` (the type of the key's
default, as the spec's schema table declares it)? -/
def typeMatches (k : String) (v : PValue) : Bool :=
  match dictGet DEFAULT_PREFERENCES k, v with
  | some (pbool _), pbool _ => true
  | some (pint _), pint _ => true
  | some (pstr _), pstr _ => true
  | _, _ => false

/-- The 19 recognized keys, in schema order. -/
def recognizedKeys : List String :=
  [ "timezone", "date_format", "time_format", "messages_per_page",
    "auto_refresh_interval", "show_message_previews",
    "show_reaction_notifications", "enable_auto_reactions",
    "default_emoji_mode", "language", "show_unmonitored_groups",
    "compact_message_view", "enable_ai_features", "default_ai_provider",
    "activity_chart_style", "dashboard_refresh_rate",
    "filter_persist_navigation", "show_deleted_messages",
    "notification_sound" ]

/-! ## Date formatting and timezone conversion -/

/-- A Python `datetime` at the granularity the service's format strings
use (down to minutes; none of the five date patterns nor the two time
patterns reference seconds), with its optional `tzinfo` zone name. -/
structure PyDateTime where
  year : Nat
  month : Nat
  day : Nat
  hour : Nat
  minute : Nat
  tzinfo : Option String := none
deriving Repr, DecidableEq

/-- Zero-pad to two digits, as `%m`, `%d`, `%H`, `%M`, `%I` render. -/
def pad2 (n : Nat) : String :=
  if n < 10 then "0" ++ toString n else toString n

/-- Zero-pad to four digits, as `%Y` renders years with century. -/
def pad4 (n : Nat) : String :=
  if n < 10 then "000" ++ toString n
  else if n < 100 then "00" ++ toString n
  else if n < 1000 then "0" ++ toString n
  else toString n

/-- One `strftime` directive, restricted to those reachable from
`format_date`'s fixed pattern tables. -/
def strfDirective (dt : PyDateTime) : Char → String
  | 'Y' => pad4 dt.year
  | 'm' => pad2 dt.month
  | 'd' => pad2 dt.day
  | 'H' => pad2 dt.hour
  | 'M' => pad2 dt.minute
  | 'I' => pad2 (if dt.hour % 12 = 0 then 12 else dt.hour % 12)
  | 'p' => if dt.hour < 12 then "AM" else "PM"
  | c => String.mk ['%', c]

/-- `strftime` over the format string's characters: `%` followed by a
directive substitutes, every other character is copied. -/
def strftimeChars (dt : PyDateTime) : List Char → String
  | [] => ""
  | '%' :: c :: rest => strfDirective dt c ++ strftimeChars dt rest
  | c :: rest => String.singleton c ++ strftimeChars dt rest

/-- `dt.strftime(fmt)`. -/
def pyStrftime (dt : PyDateTime) (fmt : String) : String :=
  strftimeChars dt fmt.data

/-- `format_date`'s fixed `format_map` from the `date_format` enum to
strftime patterns. -/
def format_map : List (String × String) :=
  [ ("YYYY-MM-DD", "%Y-%m-%d"),
    ("DD/MM/YYYY", "%d/%m/%Y"),
    ("MM/DD/YYYY", "%m/%d/%Y"),
    ("DD.MM.YYYY", "%d.%m.%Y"),
    ("YYYY年MM月DD日", "%Y年%m月%d日") ]

/-- `format_date`: resolve `date_format` and `time_format` through
`get_preference`, map the date format through `format_map` with the ISO
pattern as fallback (`dict.get` misses on unrecognized or non-string
values), optionally append the `12h`/`24h` time pattern separated by one
space, and render. -/
def format_date (st : PrefState) (now : Nat) (dt : PyDateTime)
    (includeTime : Bool := false) : String × PrefState :=
  let df := (get_preference st now "date_format").1
  let st1 := (get_preference st now "date_format").2
  let tf := (get_preference st1 now "time_format").1
  let st2 := (get_preference st1 now "time_format").2
  let dateFmt := match df with
    | some (pstr s) =>
        match dictGet format_map s with
        | some p => p
        | none => "%Y-%m-%d"
    | _ => "%Y-%m-%d"
  let fullFormat :=
    if includeTime then
      let timeFmt := if tf = some (pstr "12h") then "%I:%M %p" else "%H:%M"
      dateFmt ++ " " ++ timeFmt
    else dateFmt
  (pyStrftime dt fullFormat, st2)

/-- `pytz.timezone(name)`: succeeds exactly on identifiers known to the
external timezone database (`pytz.all_timezones`, passed as `catalog`),
raising `UnknownTimeZoneError` otherwise. -/
def pytz_timezone (catalog : List String) (name : String) : Except String String :=
  if catalog.contains name then .ok name
  else .error ("UnknownTimeZoneError: " ++ name)

/-- `tz.localize(dt)` on a naive datetime / `dt.astimezone(tz)`: attach or
replace the zone.  The wall-clock offset/DST arithmetic lives in the
external `pytz` library and is not modelled; the claims over this
function concern which zone is attached and whether the lookup raises. -/
def setZone (dt : PyDateTime) (z : String) : PyDateTime :=
  { dt with tzinfo := some z }

/-- `convert_to_user_timezone`: read the configured timezone, localize a
naive input to `from_tz`, then convert to the configured zone.  Both
`pytz.timezone` lookups may raise; the code catches nothing, so every
error propagates to the caller. -/
def convert_to_user_timezone (catalog : List String) (st : PrefState)
    (now : Nat) (dt : PyDateTime) (fromTz : String := "UTC") :
    Except String PyDateTime × PrefState :=
  let userTzName := (get_preference st now "timezone").1
  let st1 := (get_preference st now "timezone").2
  let localized : Except String PyDateTime :=
    if dt.tzinfo.isNone then
      match pytz_timezone catalog fromTz with
      | .ok z => .ok (setZone dt z)
      | .error e => .error e
    else .ok dt
  match localized with
  | .error e => (.error e, st1)
  | .ok dt' =>
      match userTzName with
      | some (pstr s) =>
          match pytz_timezone catalog s with
          | .ok z => (.ok (setZone dt' z), st1)
          | .error e => (.error e, st1)
      | _ => (.error "TypeError: expected a string timezone name", st1)

/-! ## Concrete states used to evaluate the theorems -/

/-- A freshly constructed service over an empty store and a two-zone
external catalog. -/
def sampleState : PrefState := initState [] ["UTC", "Asia/Tokyo"]

/-- A service whose cache was filled at time 0 with the default snapshot
while the store has since been holding a different timezone row. -/
def staleCacheState : PrefState :=
  { store := [("pref_timezone", "Asia/Tokyo")],
    cache := some DEFAULT_PREFERENCES, cacheTs := some 0,
    tzOptions := commonZones }

/-- A service whose stored timezone preference names a zone unknown to the
timezone database. -/
def badTzState : PrefState :=
  { store := [("pref_timezone", "Not/AZone")], cache := none, cacheTs := none,
    tzOptions := commonZones }

/-- A service with European date format and 12-hour clock configured. -/
def formatSampleState : PrefState :=
  { store := [("pref_date_format", "DD/MM/YYYY"), ("pref_time_format", "12h")],
    cache := none, cacheTs := none, tzOptions := commonZones }

/-- A service with one preference row, one foreign row, and a warm cache. -/
def resetSampleState : PrefState :=
  { store := [("pref_timezone", "Asia/Tokyo"), ("other", "x")],
    cache := some DEFAULT_PREFERENCES, cacheTs := some 0,
    tzOptions := commonZones }

/-! ## Dictionary lemmas -/

lemma dictGet_cons {β : Type} (p : String × β) (rest : Dict β) (k : String) :
    dictGet (p :: rest) k = if p.1 = k then some p.2 else dictGet rest k := by
  unfold dictGet
  rw [List.find?]
  by_cases h : p.1 = k
  · rw [if_pos h, beq_iff_eq.mpr h]
    rfl
  · rw [if_neg h, beq_eq_false_iff_ne.mpr h]

lemma dictGet_dictSet_self {β : Type} (d : Dict β) (k : String) (v : β) :
    dictGet (dictSet d k v) k = some v := by
  induction d with
  | nil => simp [dictSet, dictGet_cons]
  | cons p rest ih =>
    unfold dictSet
    by_cases h : p.1 = k
    · simp [h, dictGet_cons]
    · simp [h, dictGet_cons, ih]

lemma dictGet_dictSet_ne {β : Type} (d : Dict β) {k' k : String} (v : β)
    (h : k' ≠ k) : dictGet (dictSet d k' v) k = dictGet d k := by
  induction d with
  | nil =>
    simp only [dictSet]
    rw [dictGet_cons, if_neg h]
  | cons p rest ih =>
    unfold dictSet
    by_cases hp : p.1 = k'
    · rw [if_pos hp, dictGet_cons, dictGet_cons, if_neg h,
        if_neg (by rw [hp]; exact h)]
    · rw [if_neg hp, dictGet_cons, dictGet_cons, ih]

lemma self_mem_dictSet {β : Type} (d : Dict β) (k : String) (v : β) :
    (k, v) ∈ dictSet d k v := by
  induction d with
  | nil => simp [dictSet]
  | cons p rest ih =>
    unfold dictSet
    by_cases h : p.1 = k
    · simp [h]
    · simp [h, ih]

lemma mem_dictSet_nodup {β : Type} {d : Dict β} {k : String} {v : β}
    (hn : (d.map Prod.fst).Nodup) (r : String × β) (h : r ∈ dictSet d k v) :
    r = (k, v) ∨ (r ∈ d ∧ r.1 ≠ k) := by
  induction d with
  | nil => simp [dictSet] at h; simp [h]
  | cons p rest ih =>
    rw [List.map_cons, List.nodup_cons] at hn
    unfold dictSet at h
    by_cases hp : p.1 = k
    · rw [if_pos hp] at h
      rcases List.mem_cons.mp h with h1 | h2
      · exact Or.inl h1
      · refine Or.inr ⟨List.mem_cons_of_mem _ h2, ?_⟩
        intro hk
        exact hn.1 (hp ▸ hk ▸ List.mem_map_of_mem Prod.fst h2)
    · rw [if_neg hp] at h
      rcases List.mem_cons.mp h with h1 | h2
      · exact Or.inr ⟨h1 ▸ List.mem_cons_self _ _, h1 ▸ hp⟩
      · rcases ih hn.2 h2 with h3 | ⟨h3, h4⟩
        · exact Or.inl h3
        · exact Or.inr ⟨List.mem_cons_of_mem _ h3, h4⟩

/-! ## Reload-fold lemmas -/

lemma foldl_loadStep_untouched (rows : Store) (k : String)
    (h : ∀ r ∈ rows, touchesKey k r = false) (d : Dict PValue) :
    dictGet (rows.foldl loadStep d) k = dictGet d k := by
  induction rows generalizing d with
  | nil => rfl
  | cons r rest ih =>
    rw [List.foldl_cons, ih (fun r' hr' => h r' (List.mem_cons_of_mem _ hr'))]
    have hr := h r (List.mem_cons_self _ _)
    unfold touchesKey at hr
    unfold loadStep
    by_cases hl : likePrefPattern r.1 = true
    · rw [hl, Bool.true_and, beq_eq_false_iff_ne] at hr
      rw [if_pos hl, dictGet_dictSet_ne _ _ hr]
    · rw [if_neg hl]

lemma foldl_loadStep_touched (k : String) (w : PValue) (rows : Store)
    (d : Dict PValue)
    (hex : ∃ r ∈ rows, touchesKey k r = true)
    (hval : ∀ r ∈ rows, touchesKey k r = true → decodeStored k r.2 = w) :
    dictGet (rows.foldl loadStep d) k = some w := by
  induction rows generalizing d with
  | nil => obtain ⟨r, hr, _⟩ := hex; exact absurd hr (List.not_mem_nil r)
  | cons r rest ih =>
    rw [List.foldl_cons]
    by_cases hrest : ∃ r' ∈ rest, touchesKey k r' = true
    · exact ih (loadStep d r) hrest
        (fun r' hr' ht => hval r' (List.mem_cons_of_mem _ hr') ht)
    · have hr : touchesKey k r = true := by
        obtain ⟨r', hr', ht⟩ := hex
        rcases List.mem_cons.mp hr' with h1 | h2
        · exact h1 ▸ ht
        · exact absurd ⟨r', h2, ht⟩ hrest
      have hnone : ∀ r' ∈ rest, touchesKey k r' = false := fun r' hr' => by
        cases h' : touchesKey k r' with
        | false => rfl
        | true => exact absurd ⟨r', hr', h'⟩ hrest
      rw [foldl_loadStep_untouched rest k hnone]
      have hw := hval r (List.mem_cons_self _ _) hr
      unfold touchesKey at hr
      rw [Bool.and_eq_true, beq_iff_eq] at hr
      unfold loadStep
      rw [if_pos hr.1, hr.2, hw, dictGet_dictSet_self]

/-! ## Schema lemmas -/

lemma recognized_of_isSome {k : String}
    (hk : (dictGet DEFAULT_PREFERENCES k).isSome = true) : k ∈ recognizedKeys := by
  unfold dictGet at hk
  rw [Option.isSome_map'] at hk
  rw [List.find?_isSome] at hk
  obtain ⟨x, hx, hpx⟩ := hk
  unfold DEFAULT_PREFERENCES at hx
  fin_cases hx <;>
    (simp only [beq_iff_eq] at hpx; subst hpx; decide)

lemma recognized_pref_facts {k : String} (hk : k ∈ recognizedKeys) :
    likePrefPattern ("pref_" ++ k) = true ∧ stripPrefKey ("pref_" ++ k) = k := by
  unfold recognizedKeys at hk
  fin_cases hk <;> exact ⟨by decide, by decide⟩

lemma isSome_of_typeMatches {k : String} {v : PValue}
    (h : typeMatches k v = true) : (dictGet DEFAULT_PREFERENCES k).isSome = true := by
  unfold typeMatches at h
  cases hd : dictGet DEFAULT_PREFERENCES k with
  | none =>
    rw [hd] at h
    cases v <;> exact Bool.noConfusion h
  | some d => rfl

/-! ## Decoding lemmas -/

lemma decodeStored_plain (k s : String) (hs : plainStoredString s = true) :
    decodeStored k s = pstr s := by
  unfold plainStoredString at hs
  rw [Bool.and_eq_true, Bool.and_eq_true] at hs
  obtain ⟨⟨-, hint⟩, hcon⟩ := hs
  rw [Bool.not_eq_true'] at hint
  have hmem := of_decide_eq_true hcon
  simp only [List.mem_cons, List.not_mem_nil, or_false, not_or] at hmem
  obtain ⟨ht, hT, hf, hF, -, -, -⟩ := hmem
  have hj : jsonLoads s = none := by
    unfold jsonLoads
    rw [if_neg ht, if_neg hf, if_neg (by rw [hint]; exact Bool.false_ne_true)]
  unfold decodeStored
  rw [hj]
  simp [ht, hT, hf, hF, pyIntCoerce, hint]

lemma mem_of_pyMem_pstr {s : String} {l : List String}
    (h : pyMem (pstr s) (l.map pstr) = true) : s ∈ l := by
  unfold pyMem at h
  rw [List.any_eq_true] at h
  obtain ⟨x, hx, hpe⟩ := h
  obtain ⟨z, hz, rfl⟩ := List.mem_map.mp hx
  have : s = z := by simpa [pyEq] using hpe
  exact this ▸ hz

/-! ## `set_preference` characterization -/

lemma set_preference_eq_ok {st : PrefState} {k : String} {v : PValue}
    (h : validWrite st.tzOptions k v = true) :
    set_preference st k v =
      ({ st with store := dictSet st.store ("pref_" ++ k) (serializeValue v),
                 cache := none }, .ok true) := by
  unfold validWrite at h
  rw [Bool.and_eq_true] at h
  obtain ⟨h1, h2⟩ := h
  unfold set_preference
  cases hd : dictGet DEFAULT_PREFERENCES k with
  | none => rw [hd] at h1; exact absurd h1 (by simp)
  | some d =>
    cases hopt : PREFERENCE_OPTIONS st.tzOptions k with
    | none => simp
    | some opts =>
      rw [hopt] at h2
      have h2' : (opts.isEmpty || pyMem v opts) = true := h2
      rw [Bool.or_eq_true] at h2'
      have hcond : (!opts.isEmpty && !pyMem v opts) = false := by
        rcases h2' with he | hm
        · simp [he]
        · simp [hm]
      simp [hcond]

lemma set_preference_eq_err {st : PrefState} {k : String} {v : PValue}
    (h : validWrite st.tzOptions k v = false) :
    (set_preference st k v).1 = st ∧
      ∃ e, (set_preference st k v).2 = Except.error e := by
  unfold validWrite at h
  unfold set_preference
  cases hd : dictGet DEFAULT_PREFERENCES k with
  | none => exact ⟨rfl, _, rfl⟩
  | some d =>
    rw [hd] at h
    simp only [Option.isSome_some, Bool.true_and] at h
    cases hopt : PREFERENCE_OPTIONS st.tzOptions k with
    | none => rw [hopt] at h; exact absurd h (by simp)
    | some opts =>
      rw [hopt] at h
      rw [Bool.or_eq_false_iff] at h
      have hcond : (!opts.isEmpty && !pyMem v opts) = true := by
        rw [h.1, h.2]; rfl
      simp [hcond]

lemma set_preference_tzOptions (st : PrefState) (k : String) (v : PValue) :
    (set_preference st k v).1.tzOptions = st.tzOptions := by
  cases hw : validWrite st.tzOptions k v with
  | true => rw [set_preference_eq_ok hw]
  | false => rw [(set_preference_eq_err hw).1]

/-! ## Read-path characterization -/

lemma get_all_cache_none {st : PrefState} (now : Nat) (h : st.cache = none) :
    get_all_preferences st now =
      (loadPreferences st.store,
        { st with cache := some (loadPreferences st.store), cacheTs := some now }) := by
  unfold get_all_preferences
  rw [h]

lemma get_preference_cache_none {st : PrefState} (now : Nat) (k : String)
    (h : st.cache = none) :
    (get_preference st now k).1 =
      (match dictGet (loadPreferences st.store) k with
       | some v => some v
       | none => dictGet DEFAULT_PREFERENCES k) := by
  unfold get_preference
  rw [get_all_cache_none now h]

lemma get_preference_untouched {st : PrefState} (now : Nat) (k : String)
    (hc : st.cache = none)
    (hstore : ∀ r ∈ st.store, touchesKey k r = false) :
    (get_preference st now k).1 = dictGet DEFAULT_PREFERENCES k := by
  rw [get_preference_cache_none now k hc]
  unfold loadPreferences
  rw [foldl_loadStep_untouched st.store k hstore]
  cases hd : dictGet DEFAULT_PREFERENCES k <;> rfl

/-! ## Set-then-get -/

lemma validWrite_of {tz : List String} {k : String} {v : PValue}
    (htype : typeMatches k v = true)
    (hopts : ∀ opts, PREFERENCE_OPTIONS tz k = some opts → opts ≠ [] →
      pyMem v opts = true) :
    validWrite tz k v = true := by
  unfold validWrite
  rw [isSome_of_typeMatches htype, Bool.true_and]
  cases hopt : PREFERENCE_OPTIONS tz k with
  | none => rfl
  | some opts =>
    change (opts.isEmpty || pyMem v opts) = true
    cases he : opts.isEmpty with
    | true => rfl
    | false =>
      have hne : opts ≠ [] := by
        intro hh; rw [hh] at he; exact Bool.noConfusion he
      rw [hopts opts hopt hne]
      simp

lemma get_after_set {st : PrefState} {k : String} {v : PValue}
    (hw : validWrite st.tzOptions k v = true)
    (hn : (st.store.map Prod.fst).Nodup)
    (hstore : ∀ r ∈ st.store, touchesKey k r = true → r.1 = "pref_" ++ k)
    (now : Nat) :
    (get_preference (set_preference st k v).1 now k).1 =
      some (decodeStored k (serializeValue v)) := by
  have hsome : (dictGet DEFAULT_PREFERENCES k).isSome = true := by
    unfold validWrite at hw
    rw [Bool.and_eq_true] at hw
    exact hw.1
  obtain ⟨hlike, hstrip⟩ := recognized_pref_facts (recognized_of_isSome hsome)
  rw [set_preference_eq_ok hw]
  rw [get_preference_cache_none now k rfl]
  have hload :
      dictGet (loadPreferences (dictSet st.store ("pref_" ++ k) (serializeValue v))) k =
        some (decodeStored k (serializeValue v)) := by
    unfold loadPreferences
    apply foldl_loadStep_touched
    · refine ⟨("pref_" ++ k, serializeValue v), self_mem_dictSet _ _ _, ?_⟩
      unfold touchesKey
      rw [hlike, hstrip]
      simp
    · intro r hr ht
      rcases mem_dictSet_nodup hn r hr with rfl | ⟨hmem, hne⟩
      · rfl
      · exact absurd (hstore r hmem ht) hne
  rw [hload]

lemma decodeStored_serialize {tz : List String} {k : String} {v : PValue}
    (htz : tz ≠ []) (hplain : ∀ z ∈ tz, plainStoredString z = true)
    (htype : typeMatches k v = true)
    (hopts : ∀ opts, PREFERENCE_OPTIONS tz k = some opts → opts ≠ [] →
      pyMem v opts = true) :
    decodeStored k (serializeValue v) = v := by
  have hk : k ∈ recognizedKeys := recognized_of_isSome (isSome_of_typeMatches htype)
  unfold recognizedKeys at hk
  fin_cases hk
  · -- timezone
    cases v with
    | pbool b => exact Bool.noConfusion htype
    | pint n => exact Bool.noConfusion htype
    | pstr s =>
      have hopt := hopts (tz.map pstr) rfl
        (fun hm => htz (by simpa using hm))
      exact decodeStored_plain _ s (hplain s (mem_of_pyMem_pstr hopt))
  · -- date_format
    cases v with
    | pbool b => exact Bool.noConfusion htype
    | pint n => exact Bool.noConfusion htype
    | pstr s =>
      have hopt := hopts _ rfl (by simp)
      have hs : s ∈ ["YYYY-MM-DD", "DD/MM/YYYY", "MM/DD/YYYY", "DD.MM.YYYY",
          "YYYY年MM月DD日"] := mem_of_pyMem_pstr (by simpa using hopt)
      fin_cases hs <;> decide
  · -- time_format
    cases v with
    | pbool b => exact Bool.noConfusion htype
    | pint n => exact Bool.noConfusion htype
    | pstr s =>
      have hopt := hopts _ rfl (by simp)
      have hs : s ∈ ["24h", "12h"] := mem_of_pyMem_pstr (by simpa using hopt)
      fin_cases hs <;> decide
  · -- messages_per_page
    cases v with
    | pbool b => exact Bool.noConfusion htype
    | pstr s => exact Bool.noConfusion htype
    | pint n =>
      have hopt := hopts _ rfl (by simp)
      simp [pyMem, pyEq] at hopt
      rcases hopt with rfl | rfl | rfl | rfl <;> decide
  · -- auto_refresh_interval
    cases v with
    | pbool b => exact Bool.noConfusion htype
    | pstr s => exact Bool.noConfusion htype
    | pint n =>
      have hopt := hopts _ rfl (by simp)
      simp [pyMem, pyEq] at hopt
      rcases hopt with rfl | rfl | rfl | rfl | rfl | rfl <;> decide
  · -- show_message_previews
    cases v with
    | pbool b => cases b <;> decide
    | pint n => exact Bool.noConfusion htype
    | pstr s => exact Bool.noConfusion htype
  · -- show_reaction_notifications
    cases v with
    | pbool b => cases b <;> decide
    | pint n => exact Bool.noConfusion htype
    | pstr s => exact Bool.noConfusion htype
  · -- enable_auto_reactions
    cases v with
    | pbool b => cases b <;> decide
    | pint n => exact Bool.noConfusion htype
    | pstr s => exact Bool.noConfusion htype
  · -- default_emoji_mode
    cases v with
    | pbool b => exact Bool.noConfusion htype
    | pint n => exact Bool.noConfusion htype
    | pstr s =>
      have hopt := hopts _ rfl (by simp)
      have hs : s ∈ ["random", "fixed", "disabled"] :=
        mem_of_pyMem_pstr (by simpa using hopt)
      fin_cases hs <;> decide
  · -- language
    cases v with
    | pbool b => exact Bool.noConfusion htype
    | pint n => exact Bool.noConfusion htype
    | pstr s =>
      have hopt := hopts _ rfl (by simp)
      have hs : s ∈ ["en", "ja", "es", "fr", "de", "zh"] :=
        mem_of_pyMem_pstr (by simpa using hopt)
      fin_cases hs <;> decide
  · -- show_unmonitored_groups
    cases v with
    | pbool b => cases b <;> decide
    | pint n => exact Bool.noConfusion htype
    | pstr s => exact Bool.noConfusion htype
  · -- compact_message_view
    cases v with
    | pbool b => cases b <;> decide
    | pint n => exact Bool.noConfusion htype
    | pstr s => exact Bool.noConfusion htype
  · -- enable_ai_features
    cases v with
    | pbool b => cases b <;> decide
    | pint n => exact Bool.noConfusion htype
    | pstr s => exact Bool.noConfusion htype
  · -- default_ai_provider
    cases v with
    | pbool b => exact Bool.noConfusion htype
    | pint n => exact Bool.noConfusion htype
    | pstr s =>
      have hopt := hopts _ rfl (by simp)
      have hs : s ∈ ["ollama", "openai", "anthropic", "gemini", "groq"] :=
        mem_of_pyMem_pstr (by simpa using hopt)
      fin_cases hs <;> decide
  · -- activity_chart_style
    cases v with
    | pbool b => exact Bool.noConfusion htype
    | pint n => exact Bool.noConfusion htype
    | pstr s =>
      have hopt := hopts _ rfl (by simp)
      have hs : s ∈ ["bars", "heatmap", "line"] :=
        mem_of_pyMem_pstr (by simpa using hopt)
      fin_cases hs <;> decide
  · -- dashboard_refresh_rate
    cases v with
    | pbool b => exact Bool.noConfusion htype
    | pstr s => exact Bool.noConfusion htype
    | pint n =>
      have hopt := hopts _ rfl (by simp)
      simp [pyMem, pyEq] at hopt
      rcases hopt with rfl | rfl | rfl | rfl | rfl <;> decide
  · -- filter_persist_navigation
    cases v with
    | pbool b => cases b <;> decide
    | pint n => exact Bool.noConfusion htype
    | pstr s => exact Bool.noConfusion htype
  · -- show_deleted_messages
    cases v with
    | pbool b => cases b <;> decide
    | pint n => exact Bool.noConfusion htype
    | pstr s => exact Bool.noConfusion htype
  · -- notification_sound
    cases v with
    | pbool b => cases b <;> decide
    | pint n => exact Bool.noConfusion htype
    | pstr s => exact Bool.noConfusion htype

/-! ## Batch-write lemmas -/

lemma set_multiple_cons_ok {st st' : PrefState} {e : String × PValue}
    {l : List (String × PValue)}
    (h : set_preference st e.1 e.2 = (st', Except.ok true)) :
    set_multiple_preferences st (e :: l) = set_multiple_preferences st' l := by
  have hdef : set_multiple_preferences st (e :: l) =
      (match set_preference st e.1 e.2 with
       | (st'', Except.ok _) => set_multiple_preferences st'' l
       | (st'', Except.error er) => (st'', Except.error er)) := rfl
  rw [hdef, h]

lemma set_multiple_all_ok (l : List (String × PValue)) :
    ∀ st : PrefState, (∀ e ∈ l, validWrite st.tzOptions e.1 e.2 = true) →
      set_multiple_preferences st l = (applyWrites st l, Except.ok true) := by
  induction l with
  | nil => intro st _; rfl
  | cons e rest ih =>
    intro st h
    have hw := h e (List.mem_cons_self _ _)
    unfold set_multiple_preferences
    rw [set_preference_eq_ok hw]
    have hrest : ∀ e' ∈ rest,
        validWrite (set_preference st e.1 e.2).1.tzOptions e'.1 e'.2 = true := by
      intro e' he'
      rw [set_preference_tzOptions]
      exact h e' (List.mem_cons_of_mem _ he')
    have happ : applyWrites st (e :: rest) = applyWrites (set_preference st e.1 e.2).1 rest := by
      unfold applyWrites
      rw [List.foldl_cons]
    rw [happ, ← ih (set_preference st e.1 e.2).1 (by rw [set_preference_eq_ok hw] at hrest ⊢; exact hrest)]
    rw [set_preference_eq_ok hw]

lemma set_multiple_first_error (bad : String × PValue) (rest : List (String × PValue))
    (pre : List (String × PValue)) :
    ∀ st : PrefState, (∀ e ∈ pre, validWrite st.tzOptions e.1 e.2 = true) →
      validWrite st.tzOptions bad.1 bad.2 = false →
      (set_multiple_preferences st (pre ++ bad :: rest)).1 = applyWrites st pre ∧
      ∃ er, (set_multiple_preferences st (pre ++ bad :: rest)).2 = Except.error er := by
  induction pre with
  | nil =>
    intro st _ hbad
    obtain ⟨hst, er, herr⟩ := set_preference_eq_err hbad
    rw [List.nil_append]
    unfold set_multiple_preferences
    cases hsp : set_preference st bad.1 bad.2 with
    | mk st' res =>
      cases res with
      | ok b =>
        rw [hsp] at herr
        exact absurd herr (by simp)
      | error e =>
        rw [hsp] at hst
        exact ⟨hst, e, rfl⟩
  | cons e pre' ih =>
    intro st h hbad
    have hw := h e (List.mem_cons_self _ _)
    have hok : set_preference st e.1 e.2 =
        ((set_preference st e.1 e.2).1, Except.ok true) := by
      rw [set_preference_eq_ok hw]
    have htz : (set_preference st e.1 e.2).1.tzOptions = st.tzOptions :=
      set_preference_tzOptions st e.1 e.2
    have h' : ∀ e' ∈ pre', validWrite (set_preference st e.1 e.2).1.tzOptions e'.1 e'.2 = true := by
      intro e' he'
      rw [htz]
      exact h e' (List.mem_cons_of_mem _ he')
    have hbad' : validWrite (set_preference st e.1 e.2).1.tzOptions bad.1 bad.2 = false := by
      rw [htz]; exact hbad
    have hmain := ih (set_preference st e.1 e.2).1 h' hbad'
    have hstep : set_multiple_preferences st ((e :: pre') ++ bad :: rest) =
        set_multiple_preferences (set_preference st e.1 e.2).1 (pre' ++ bad :: rest) := by
      rw [List.cons_append]
      exact set_multiple_cons_ok hok
    rw [hstep]
    refine ⟨?_, hmain.2⟩
    rw [hmain.1]
    unfold applyWrites
    rw [List.foldl_cons]

/-! ## Miscellaneous service lemmas -/

lemma get_all_tzOptions (st : PrefState) (now : Nat) :
    (get_all_preferences st now).2.tzOptions = st.tzOptions := by
  unfold get_all_preferences
  split
  · split <;> rfl
  · rfl

lemma foldl_loadStep_no_match (rows : Store)
    (h : ∀ r ∈ rows, likePrefPattern r.1 = false) (d : Dict PValue) :
    rows.foldl loadStep d = d := by
  induction rows generalizing d with
  | nil => rfl
  | cons r rest ih =>
    rw [List.foldl_cons]
    have hr := h r (List.mem_cons_self _ _)
    have : loadStep d r = d := by
      unfold loadStep
      rw [if_neg (by rw [hr]; exact Bool.false_ne_true)]
    rw [this]
    exact ih (fun r' hr' => h r' (List.mem_cons_of_mem _ hr')) d

lemma dictGet_format_map {df p : String} (h : (df, p) ∈ format_map) :
    dictGet format_map df = some p := by
  unfold format_map at h
  fin_cases h <;> decide

/-! # Claims -/

/-- C1, counterexample: the claim requires `set_preference(k, v)` to fail
whenever `v` does not have the key's declared type.  `show_message_previews`
is boolean-typed with no `allowed_values` entry, yet storing the string
`"banana"` succeeds (and persists it): `set_preference` never checks
types. -/
theorem C1_counterexample :
    typeMatches "show_message_previews" (pstr "banana") = false ∧
    (set_preference (initState [] ["UTC"]) "show_message_previews"
        (pstr "banana")).2 = Except.ok true ∧
    (set_preference (initState [] ["UTC"]) "show_message_previews"
        (pstr "banana")).1.store =
      [("pref_show_message_previews", "banana")] :=
  ⟨by decide, by decide, by decide⟩

/-- C1 (amended): for every recognized key `k`, `set_preference(k, v)`
succeeds iff the schema declares no options entry for `k`, or the declared
list is empty, or `v` is a member of the list under Python equality — no
type check is performed; when it fails it raises a `ValueError` and the
whole state (store included) is unchanged. -/
theorem C1_set_preference_validation (st : PrefState) (k : String) (v : PValue)
    (hk : (dictGet DEFAULT_PREFERENCES k).isSome = true) :
    ((set_preference st k v).2 = Except.ok true ↔
      (match PREFERENCE_OPTIONS st.tzOptions k with
       | some opts => opts.isEmpty || pyMem v opts
       | none => true) = true) ∧
    ((match PREFERENCE_OPTIONS st.tzOptions k with
      | some opts => opts.isEmpty || pyMem v opts
      | none => true) = false →
      (set_preference st k v).1 = st ∧
        ∃ er, (set_preference st k v).2 = Except.error er) := by
  have hvw : validWrite st.tzOptions k v =
      (match PREFERENCE_OPTIONS st.tzOptions k with
       | some opts => opts.isEmpty || pyMem v opts
       | none => true) := by
    unfold validWrite
    rw [hk, Bool.true_and]
  constructor
  · constructor
    · intro hok
      cases hb : (match PREFERENCE_OPTIONS st.tzOptions k with
        | some opts => opts.isEmpty || pyMem v opts
        | none => true) with
      | true => rfl
      | false =>
        obtain ⟨-, er, herr⟩ := set_preference_eq_err (hvw.trans hb)
        rw [herr] at hok
        exact Except.noConfusion hok
    · intro hb
      rw [set_preference_eq_ok (hvw.trans hb)]
  · intro hb
    exact set_preference_eq_err (hvw.trans hb)

/-- C1 witness: `set_preference('time_format', '6h')` fails (only
`24h`/`12h` are allowed) and leaves the state unchanged. -/
theorem C1_set_preference_validation_witness :
    (set_preference sampleState "time_format" (pstr "6h")).2 ≠ Except.ok true ∧
    (set_preference sampleState "time_format" (pstr "6h")).1 = sampleState := by
  have h := C1_set_preference_validation sampleState "time_format" (pstr "6h")
    (by decide)
  constructor
  · intro hok
    have hb := h.1.mp hok
    revert hb
    decide
  · exact (h.2 (by decide)).1

/-- C3: the cache-age test uses the `.seconds` component of the
`timedelta`, which wraps every 86400 seconds, instead of the total age.
At a cache age of exactly one day — far beyond the 60-second timeout —
`get_all_preferences` still returns the stale cached snapshot (timezone
`UTC`) although the store holds `Asia/Tokyo` and the claim (and the
code's own `# Cache for 60 seconds` comment) require a reload. -/
theorem C3_cache_wraparound_bug :
    cacheTimeout ≤ 86400 - 0 ∧
    (get_all_preferences staleCacheState 86400).1 = DEFAULT_PREFERENCES ∧
    dictGet (get_all_preferences staleCacheState 86400).1 "timezone" =
      some (pstr "UTC") ∧
    dictGet (loadPreferences staleCacheState.store) "timezone" =
      some (pstr "Asia/Tokyo") :=
  ⟨by decide, by decide, by decide, by decide⟩

/-- C5: with an empty cache and no stored row decoding to `k`,
`get_preference k` returns exactly the schema default; the table has 19
keys, including timezone `'UTC'`, messages_per_page `50` and
show_message_previews `true`. -/
theorem C5_defaults_before_set (st : PrefState) (now : Nat) (k : String)
    (hc : st.cache = none)
    (hstore : ∀ r ∈ st.store, touchesKey k r = false) :
    (get_preference st now k).1 = dictGet DEFAULT_PREFERENCES k ∧
    DEFAULT_PREFERENCES.length = 19 ∧
    dictGet DEFAULT_PREFERENCES "timezone" = some (pstr "UTC") ∧
    dictGet DEFAULT_PREFERENCES "messages_per_page" = some (pint 50) ∧
    dictGet DEFAULT_PREFERENCES "show_message_previews" = some (pbool true) :=
  ⟨get_preference_untouched now k hc hstore, by decide, by decide, by decide,
    by decide⟩

/-- C5 witness: on a fresh service over an empty store, `timezone` reads
back as its declared default. -/
theorem C5_defaults_before_set_witness :
    (get_preference sampleState 0 "timezone").1 =
      dictGet DEFAULT_PREFERENCES "timezone" :=
  (C5_defaults_before_set sampleState 0 "timezone" rfl
    (fun r hr => absurd hr (List.not_mem_nil r))).1

/-- C10: for a key outside the recognized schema with no stored row for
it, `get_preference` does not raise: the snapshot lookup and the
static-default fallback both miss and it returns `None`. -/
theorem C10_unknown_key_returns_none (st : PrefState) (now : Nat) (k : String)
    (hk : dictGet DEFAULT_PREFERENCES k = none)
    (hc : st.cache = none)
    (hstore : ∀ r ∈ st.store, touchesKey k r = false) :
    (get_preference st now k).1 = none := by
  rw [get_preference_untouched now k hc hstore, hk]

/-- C10 witness: `get_preference('favorite_color')` on a fresh service
returns `None`. -/
theorem C10_unknown_key_returns_none_witness :
    (get_preference sampleState 0 "favorite_color").1 = none :=
  C10_unknown_key_returns_none sampleState 0 "favorite_color" (by decide) rfl
    (fun r hr => absurd hr (List.not_mem_nil r))

/-- C2: for every recognized key `k` and every value `v` of the key's
declared type that lies in its allowed set (when one is declared),
`set_preference(k, v)` succeeds and a subsequent `get_preference(k)` —
which reloads because `set` cleared the cache — returns `v` with its
original type (booleans and integers decode back from their string
encodings).  The timezone catalog entries are assumed to be plain
identifier strings (true of every IANA zone name), and the store is
assumed not to hold a foreign row that strips to `k`. -/
theorem C2_set_get_roundtrip (st : PrefState) (now : Nat) (k : String)
    (v : PValue)
    (htz : st.tzOptions ≠ [])
    (hplain : ∀ z ∈ st.tzOptions, plainStoredString z = true)
    (htype : typeMatches k v = true)
    (hopts : ∀ opts, PREFERENCE_OPTIONS st.tzOptions k = some opts →
      opts ≠ [] → pyMem v opts = true)
    (hn : (st.store.map Prod.fst).Nodup)
    (hstore : ∀ r ∈ st.store, touchesKey k r = true → r.1 = "pref_" ++ k) :
    (set_preference st k v).2 = Except.ok true ∧
    (get_preference (set_preference st k v).1 now k).1 = some v := by
  have hw := validWrite_of htype hopts
  constructor
  · rw [set_preference_eq_ok hw]
  · rw [get_after_set hw hn hstore now,
      decodeStored_serialize htz hplain htype hopts]

/-- C2 witness: `set_preference('messages_per_page', 100)` then
`get_preference('messages_per_page')` returns the integer 100, not the
string `"100"`. -/
theorem C2_set_get_roundtrip_witness :
    (set_preference sampleState "messages_per_page" (pint 100)).2 =
      Except.ok true ∧
    (get_preference (set_preference sampleState "messages_per_page"
        (pint 100)).1 0 "messages_per_page").1 = some (pint 100) := by
  apply C2_set_get_roundtrip sampleState 0 "messages_per_page" (pint 100)
  · decide
  · decide
  · decide
  · intro opts h hne
    have h' : some [pint 25, pint 50, pint 100, pint 200] = some opts := h
    have h'' := Option.some.inj h'
    subst h''
    decide
  · decide
  · intro r hr ht
    exact absurd hr (List.not_mem_nil r)

/-- C4, counterexample: with the stored timezone preference naming a zone
unknown to the timezone database, `convert_to_user_timezone` raises
(`pytz.timezone` propagates `UnknownTimeZoneError`); the claim's promised
deterministic UTC fallback does not exist in the service. -/
theorem C4_counterexample :
    (convert_to_user_timezone ["UTC", "Asia/Tokyo"] badTzState 0
        ⟨2024, 1, 1, 0, 0, none⟩ "UTC").1 =
      Except.error "UnknownTimeZoneError: Not/AZone" := by decide

/-- C4 (amended): when the configured timezone preference resolves to a
string not in the timezone database's catalog, `convert_to_user_timezone`
propagates the lookup failure to the caller (there is no `try`/`except`
and no UTC fallback inside the service; the fallback the spec describes
lives at call sites). -/
theorem C4_convert_error_propagates (catalog : List String) (st : PrefState)
    (now : Nat) (dt : PyDateTime) (fromTz : String) (s : String)
    (htzval : (get_preference st now "timezone").1 = some (pstr s))
    (hs : catalog.contains s = false)
    (hfrom : dt.tzinfo.isNone = true → catalog.contains fromTz = true) :
    (convert_to_user_timezone catalog st now dt fromTz).1 =
      Except.error ("UnknownTimeZoneError: " ++ s) := by
  have hs' : ¬ s ∈ catalog := by simpa using hs
  cases hti : dt.tzinfo with
  | none =>
    have hf' : fromTz ∈ catalog := by simpa using hfrom (by rw [hti]; rfl)
    simp [convert_to_user_timezone, pytz_timezone, htzval, hti, hs', hf']
  | some z =>
    simp [convert_to_user_timezone, pytz_timezone, htzval, hti, hs']

/-- C4 witness for the amended claim, at the concrete bad-zone state. -/
theorem C4_convert_error_propagates_witness :
    (convert_to_user_timezone ["UTC", "Asia/Tokyo"] badTzState 0
        ⟨2024, 3, 5, 10, 0, none⟩ "UTC").1 =
      Except.error ("UnknownTimeZoneError: " ++ "Not/AZone") :=
  C4_convert_error_propagates ["UTC", "Asia/Tokyo"] badTzState 0
    ⟨2024, 3, 5, 10, 0, none⟩ "UTC" "Not/AZone" (by decide) (by decide)
    (by decide)

/-- C6: from any state, `reset_to_defaults` clears the cache and deletes
every row matched by `LIKE 'pref_%'` (in particular every row under the
reserved `pref_` prefix), so the next `get_all_preferences` returns
exactly the default map. -/
theorem C6_reset_restores_defaults (st : PrefState) (now : Nat) :
    (get_all_preferences (reset_to_defaults st).1 now).1 = DEFAULT_PREFERENCES ∧
    (reset_to_defaults st).1.cache = none ∧
    ∀ r ∈ (reset_to_defaults st).1.store, likePrefPattern r.1 = false := by
  refine ⟨?_, rfl, ?_⟩
  · rw [get_all_cache_none now rfl]
    show loadPreferences (reset_to_defaults st).1.store = DEFAULT_PREFERENCES
    unfold loadPreferences
    apply foldl_loadStep_no_match
    intro r hr
    have hmem : r ∈ st.store.filter (fun row => !likePrefPattern row.1) := hr
    rw [List.mem_filter] at hmem
    obtain ⟨-, hpred⟩ := hmem
    rw [Bool.not_eq_true'] at hpred
    exact hpred
  · intro r hr
    have hmem : r ∈ st.store.filter (fun row => !likePrefPattern row.1) := hr
    rw [List.mem_filter] at hmem
    obtain ⟨-, hpred⟩ := hmem
    rw [Bool.not_eq_true'] at hpred
    exact hpred

/-- C6 witness: resetting a service with a stored timezone row and a warm
cache, then reading, yields the default map. -/
theorem C6_reset_restores_defaults_witness :
    (get_all_preferences (reset_to_defaults resetSampleState).1 0).1 =
      DEFAULT_PREFERENCES :=
  (C6_reset_restores_defaults resetSampleState 0).1

/-- C7: `format_date` maps the stored `date_format` through the fixed 1:1
`format_map` table, falls back to the ISO pattern whenever the stored
value is not one of the five table keys, and with `include_time` appends
the `time_format`-chosen pattern (`%I:%M %p` for `'12h'`, `%H:%M`
otherwise) separated by a single space; in particular the configured
European/12-hour state renders `datetime(2024,12,25,14,30)` as
`"25/12/2024 02:30 PM"`. -/
theorem C7_format_date_mapping :
    (format_date formatSampleState 0 ⟨2024, 12, 25, 14, 30, none⟩ true).1 =
      "25/12/2024 02:30 PM" ∧
    (∀ (st : PrefState) (now : Nat) (dt : PyDateTime) (df p : String),
      (df, p) ∈ format_map →
      (get_preference st now "date_format").1 = some (pstr df) →
      (format_date st now dt false).1 = pyStrftime dt p) ∧
    (∀ (st : PrefState) (now : Nat) (dt : PyDateTime),
      (∀ s : String, (get_preference st now "date_format").1 = some (pstr s) →
        dictGet format_map s = none) →
      (format_date st now dt false).1 = pyStrftime dt "%Y-%m-%d") ∧
    (∀ (st : PrefState) (now : Nat) (dt : PyDateTime),
      (format_date st now dt true).1 =
        pyStrftime dt
          ((match (get_preference st now "date_format").1 with
            | some (pstr s) =>
                match dictGet format_map s with
                | some p => p
                | none => "%Y-%m-%d"
            | _ => "%Y-%m-%d") ++ " " ++
           (if (get_preference (get_preference st now "date_format").2 now
                  "time_format").1 = some (pstr "12h") then "%I:%M %p"
            else "%H:%M"))) := by
  refine ⟨by decide, ?_, ?_, ?_⟩
  · intro st now dt df p hmem hdf
    simp [format_date, hdf, dictGet_format_map hmem]
  · intro st now dt hnone
    cases hv : (get_preference st now "date_format").1 with
    | none => simp [format_date, hv]
    | some pv =>
      cases pv with
      | pbool b => simp [format_date, hv]
      | pint n => simp [format_date, hv]
      | pstr s => simp [format_date, hv, hnone s hv]
  · intro st now dt
    rfl

/-- C7 witness: the table conjunct evaluated at the configured state. -/
theorem C7_format_date_mapping_witness :
    (format_date formatSampleState 0 ⟨2024, 12, 25, 14, 30, none⟩ false).1 =
      pyStrftime ⟨2024, 12, 25, 14, 30, none⟩ "%d/%m/%Y" :=
  C7_format_date_mapping.2.1 formatSampleState 0 ⟨2024, 12, 25, 14, 30, none⟩
    "DD/MM/YYYY" "%d/%m/%Y" (by decide) (by decide)

/-- C8: `set_multiple_preferences` applies `set_preference` entry by entry
in iteration order with no transactionality: if every entry is valid the
whole batch is applied; if an entry fails validation the error propagates
at that point and exactly the entries before it remain persisted (no
rollback). -/
theorem C8_set_multiple_not_transactional (st : PrefState)
    (pre rest : List (String × PValue)) (bad : String × PValue)
    (hpre : ∀ e ∈ pre, validWrite st.tzOptions e.1 e.2 = true)
    (hbad : validWrite st.tzOptions bad.1 bad.2 = false) :
    ((set_multiple_preferences st (pre ++ bad :: rest)).1 = applyWrites st pre ∧
      ∃ er, (set_multiple_preferences st (pre ++ bad :: rest)).2 =
        Except.error er) ∧
    (∀ l : List (String × PValue),
      (∀ e ∈ l, validWrite st.tzOptions e.1 e.2 = true) →
      set_multiple_preferences st l = (applyWrites st l, Except.ok true)) :=
  ⟨set_multiple_first_error bad rest pre st hpre hbad,
   fun l hl => set_multiple_all_ok l st hl⟩

/-- C8 witness: a batch whose second entry is invalid leaves exactly the
first entry persisted. -/
theorem C8_set_multiple_not_transactional_witness :
    (set_multiple_preferences sampleState
        [("time_format", pstr "12h"), ("time_format", pstr "6h"),
         ("language", pstr "de")]).1 =
      applyWrites sampleState [("time_format", pstr "12h")] :=
  (C8_set_multiple_not_transactional sampleState
    [("time_format", pstr "12h")] [("language", pstr "de")]
    ("time_format", pstr "6h") (by decide) (by decide)).1.1

/-- C9: the timezone catalog is the fixed 14-entry common list (first
entry `UTC`, last entry `Australia/Melbourne`) followed by the remaining
catalog identifiers sorted lexicographically with the common ones
excluded; it has no duplicates when the external catalog has none,
contains every catalog identifier, and no service operation changes it
after construction. -/
theorem C9_timezone_catalog (allZones : List String) (h : allZones.Nodup) :
    commonZones.length = 14 ∧
    commonZones.head? = some "UTC" ∧
    commonZones.getLast? = some "Australia/Melbourne" ∧
    getTimezoneOptions allZones =
      commonZones ++ List.insertionSort (· ≤ ·)
        (allZones.filter (fun tz => !(commonZones.contains tz))) ∧
    List.Sorted (· ≤ ·)
      (List.insertionSort (· ≤ ·)
        (allZones.filter (fun tz => !(commonZones.contains tz)))) ∧
    (getTimezoneOptions allZones).Nodup ∧
    (∀ z ∈ allZones, z ∈ getTimezoneOptions allZones) ∧
    (∀ (st : PrefState) (k : String) (v : PValue),
      (set_preference st k v).1.tzOptions = st.tzOptions) ∧
    (∀ st : PrefState, (reset_to_defaults st).1.tzOptions = st.tzOptions) ∧
    (∀ (st : PrefState) (now : Nat),
      (get_all_preferences st now).2.tzOptions = st.tzOptions) := by
  refine ⟨by decide, by decide, by decide, rfl,
    List.sorted_insertionSort _ _, ?_, ?_, set_preference_tzOptions,
    fun st => rfl, get_all_tzOptions⟩
  · unfold getTimezoneOptions
    rw [List.nodup_append]
    refine ⟨by decide, ?_, ?_⟩
    · exact ((List.perm_insertionSort _ _).symm).nodup (h.filter _)
    · intro a ha hmem
      rw [List.mem_insertionSort, List.mem_filter] at hmem
      have hc := hmem.2
      rw [Bool.not_eq_true'] at hc
      revert hc
      fin_cases ha <;> decide
  · intro z hz
    unfold getTimezoneOptions
    by_cases hcz : z ∈ commonZones
    · exact List.mem_append.mpr (Or.inl hcz)
    · refine List.mem_append.mpr (Or.inr ?_)
      rw [List.mem_insertionSort, List.mem_filter]
      refine ⟨hz, ?_⟩
      have hcon : commonZones.contains z = false := by
        cases hc : commonZones.contains z with
        | false => rfl
        | true => exact absurd (List.mem_of_elem_eq_true hc) hcz
      rw [hcon]
      rfl

/-- C9 witness: the catalog built over a small duplicate-free external
list is itself duplicate-free and the common list has 14 entries. -/
theorem C9_timezone_catalog_witness :
    (getTimezoneOptions ["B/Zone", "A/Zone"]).Nodup ∧
      commonZones.length = 14 := by
  have h := C9_timezone_catalog ["B/Zone", "A/Zone"] (by decide)
  exact ⟨h.2.2.2.2.2.1, h.1⟩

end SignalBot
